import Mathlib

/-!
Verification of the Authorization & Session Lifecycle subsystem of the
maxon-dashboard backend: role/permission evaluation
(`app/core/permissions.py`), path-scope evaluation for direct keys
(`user_can_access_path`) and listings (`_effective_prefix` in
`app/api/v1/files.py`), and the session manager
(`app/services/auth_service.py` with the token codec of
`app/core/security.py`).

Modelling conventions:
* Time is a natural number of whole seconds (JWT `iat`/`exp` claims are
  second-granular integers; `datetime.utcnow()` comparisons are modelled at
  the same granularity).
* A JWT string is modelled by the inductive `Token`: `signed c` stands for a
  string produced by `jwt.encode` with claim set `c` under the server secret,
  and `garbage s` for any other string.  Deterministic signing makes equal
  claim sets yield equal strings, and distinct claim sets yield distinct
  strings (no collisions); an unsigned string never equals a signed one
  (unforgeability).  `decode_token` checks the expiry exactly as
  `jose.jwt.decode` does (expired iff `exp < now`).
* The password hasher is an external collaborator; functions that need it
  take a `verify : String → String → Bool` parameter standing for
  `verify_password(plain, hashed)`.
* The relational store is a `DB` value: a list of user rows and a list of
  session rows.  Row mutation/deletion is by primary key `id`, matching the
  ORM.  Roles are carried as their string values (`UserRole` is a
  `str`-mixin enum whose members compare and hash as their values).
-/

namespace Maxon

/-- Claim set carried by a JWT issued or checked by the backend: `sub`
(stringified user id), `email`, `role`, `exp`, `iat`, and the optional
`type` discriminator (present and equal to "refresh" on refresh tokens,
absent on access tokens). -/
structure TokenClaims where
  sub : String
  email : String
  role : String
  exp : Nat
  iat : Nat
  type : Option String
  deriving DecidableEq, Repr

/-- Model of a JWT string: either a string signed by the server over a claim
set, or any other (malformed / foreign-signed) string. -/
inductive Token where
  | signed (claims : TokenClaims)
  | garbage (s : String)
  deriving DecidableEq, Repr

/-- Row of the `users` table (server-managed audit timestamps omitted). -/
structure User where
  id : Nat
  email : String
  hashed_password : String
  full_name : Option String
  role : String
  is_active : Bool
  allowedPathPrefix : Option String
  last_login_at : Option Nat
  deriving DecidableEq, Repr

/-- Row of the `sessions` table: `refresh_token` is the stored token string,
`expires_at` the session expiry. -/
structure Session where
  id : Nat
  user_id : Nat
  refresh_token : Token
  expires_at : Nat
  deriving DecidableEq, Repr

/-- State of the relational store. -/
structure DB where
  users : List User
  sessions : List Session
  deriving DecidableEq, Repr

/-- Token pair returned by login/refresh (the `token_type: bearer` constant
is omitted). -/
structure TokenPair where
  access_token : Token
  refresh_token : Token
  deriving DecidableEq, Repr

/-- Error surfaced by the auth endpoints. -/
inductive AuthError where
  | invalidCredentials
  | invalidRefreshToken
  deriving DecidableEq, Repr

/-- Config `settings.ACCESS_TOKEN_EXPIRE_MINUTES`. -/
def ACCESS_TOKEN_EXPIRE_MINUTES : Nat := 30

/-- Config `settings.REFRESH_TOKEN_EXPIRE_DAYS`. -/
def REFRESH_TOKEN_EXPIRE_DAYS : Nat := 7

/-- Embeds `security.create_access_token` with the default expiry: claims
are the caller's `sub`/`email`/`role` with `sub` stringified, `exp` thirty
minutes from now, `iat` now, and no `type` claim. -/
def create_access_token (now : Nat) (sub : Nat) (email role : String) : Token :=
  Token.signed
    { sub := toString sub, email := email, role := role,
      exp := now + ACCESS_TOKEN_EXPIRE_MINUTES * 60, iat := now, type := none }

/-- Embeds `security.create_refresh_token`: like the access token but with a
seven-day expiry and the `type = "refresh"` discriminator. -/
def create_refresh_token (now : Nat) (sub : Nat) (email role : String) : Token :=
  Token.signed
    { sub := toString sub, email := email, role := role,
      exp := now + REFRESH_TOKEN_EXPIRE_DAYS * 86400, iat := now, type := some "refresh" }

/-- Embeds `security.decode_token`: a server-signed token decodes to its
claims unless expired (`jose` treats `exp < now` as expired); any other
string yields `None`. -/
def decode_token (now : Nat) (tok : Token) : Option TokenClaims :=
  match tok with
  | Token.signed c => if c.exp < now then none else some c
  | Token.garbage _ => none

/-- Embeds the `ROLE_PERMISSIONS` dict of `permissions.py` as a partial map
from role string to permission list. -/
def ROLE_PERMISSIONS (role : String) : Option (List String) :=
  if role = "admin" then some ["*"]
  else if role = "editor" then
    some ["files:read", "files:write", "files:delete", "analytics:read"]
  else if role = "viewer" then some ["files:read", "analytics:read"]
  else if role = "external_viewer" then some ["files:read"]
  else none

/-- Embeds `permissions.has_permission`: look the role up in
`ROLE_PERMISSIONS` (defaulting to the empty list), grant if the wildcard is
present, otherwise test membership. -/
def has_permission (user : User) (permission : String) : Bool :=
  let user_permissions := (ROLE_PERMISSIONS user.role).getD []
  if "*" ∈ user_permissions then true
  else decide (permission ∈ user_permissions)

/-- Python `s.rstrip("/")`: drop every trailing slash.  (Written over the
character list so that it evaluates by structural recursion.) -/
def rstripSlash (s : String) : String :=
  String.mk (List.reverse (List.dropWhile (fun c => c == '/') (List.reverse s.data)))

/-- Python `s.strip()`: remove leading and trailing whitespace. -/
def pyStrip (s : String) : String :=
  String.mk (List.reverse (List.dropWhile Char.isWhitespace
    (List.reverse (List.dropWhile Char.isWhitespace s.data))))

/-- Python `s.startswith(b)`. -/
def startsWith (s b : String) : Bool :=
  List.isPrefixOf b.data s.data

/-- Embeds `permissions.user_can_access_path` (direct-key scope check):
admin passes; an empty/absent restriction passes; otherwise the
slash-normalised key must equal or extend the normalised restriction base. -/
def user_can_access_path (user : User) (p : String) : Bool :=
  if user.role = "admin" then true
  else
    let allowed := pyStrip (user.allowedPathPrefix.getD "")
    if allowed = "" then true
    else
      let path := rstripSlash (pyStrip p) ++ "/"
      let base := rstripSlash allowed ++ "/"
      decide (path = base) || startsWith path base

/-- Result of the listing scoper: an effective prefix, or HTTP 403. -/
inductive ListScope where
  | ok (effective : String)
  | forbidden
  deriving DecidableEq, Repr

/-- Embeds `files._effective_prefix` (listing scope): with no restriction the
requested value passes through; otherwise the normalised request must sit
under the restriction base (else 403), an empty normalised request being
redirected to the restriction root. -/
def effectivePrefix (user : User) (p : String) : ListScope :=
  let allowed := pyStrip (user.allowedPathPrefix.getD "")
  if allowed = "" then ListScope.ok p
  else
    let pnorm := rstripSlash (pyStrip p)
    if pnorm ≠ "" ∧ startsWith (pnorm ++ "/") (rstripSlash allowed ++ "/") = false then
      ListScope.forbidden
    else if pnorm = "" then ListScope.ok (rstripSlash allowed ++ "/")
    else ListScope.ok p

/-- Embeds `AuthService.authenticate_user`: find the user by email, then
fail on password mismatch or inactive account — all three failures return
`None`. -/
def authenticate_user (verify : String → String → Bool) (db : DB)
    (email password : String) : Option User :=
  match db.users.find? (fun u => decide (u.email = email)) with
  | none => none
  | some user =>
    if verify password user.hashed_password = false then none
    else if user.is_active = false then none
    else some user

/-- Embeds `AuthService.get_session_by_token`: exact match on the stored
token string. -/
def get_session_by_token (db : DB) (tok : Token) : Option Session :=
  db.sessions.find? (fun s => decide (s.refresh_token = tok))

/-- Embeds `AuthService.delete_session`: remove the row by primary key. -/
def delete_session (db : DB) (sess : Session) : DB :=
  { db with sessions := db.sessions.filter (fun r => decide (r.id ≠ sess.id)) }

/-- ORM row update by primary key (the commit of a mutated `Session`). -/
def update_session (db : DB) (s1 : Session) : DB :=
  { db with sessions := db.sessions.map (fun r => if r.id = s1.id then s1 else r) }

/-- SQLAlchemy autoincrement id for a fresh session row. -/
def nextSessionId (db : DB) : Nat :=
  (db.sessions.foldr (fun s m => max s.id m) 0) + 1

/-- Embeds `AuthService.create_session`: issue a fresh refresh token for the
user and insert a session row expiring seven days from now. -/
def create_session (db : DB) (now : Nat) (user : User) : Session × DB :=
  let rt := create_refresh_token now user.id user.email user.role
  let sess : Session :=
    { id := nextSessionId db, user_id := user.id, refresh_token := rt,
      expires_at := now + REFRESH_TOKEN_EXPIRE_DAYS * 86400 }
  (sess, { db with sessions := db.sessions ++ [sess] })

/-- User lookup by id (`select(User).where(User.id == ...)`). -/
def find_user_by_id (db : DB) (uid : Nat) : Option User :=
  db.users.find? (fun u => decide (u.id = uid))

/-- Embeds the `/auth/login` endpoint: authenticate, stamp
`last_login_at`, create a session, and return the access token plus the
session's refresh token; any authentication failure surfaces as the single
`invalidCredentials` error (HTTP 401 "Incorrect email or password"). -/
def login (verify : String → String → Bool) (db : DB) (now : Nat)
    (email password : String) : Except AuthError TokenPair × DB :=
  match authenticate_user verify db email password with
  | none => (Except.error AuthError.invalidCredentials, db)
  | some user =>
    let stamp := fun (u : User) =>
      if u.id = user.id then { u with last_login_at := some now } else u
    let db1 : DB := { db with users := db.users.map stamp }
    let sd := create_session db1 now user
    let access := create_access_token now user.id user.email user.role
    (Except.ok { access_token := access, refresh_token := sd.1.refresh_token }, sd.2)

/-- Embeds `AuthService.refresh_access_token`: verify the presented token
and its `type` claim, find the session by exact token match, lazily delete
an expired session, reload the owning user, then rotate the session row in
place and return a fresh token pair.  `none` is surfaced by the endpoint as
HTTP 401 "Invalid or expired refresh token" (`InvalidRefreshToken`). -/
def refresh_access_token (db : DB) (now : Nat) (tok : Token) :
    Option TokenPair × DB :=
  match decode_token now tok with
  | none => (none, db)
  | some payload =>
    if payload.type ≠ some "refresh" then (none, db)
    else
      match get_session_by_token db tok with
      | none => (none, db)
      | some sess =>
        if sess.expires_at < now then (none, delete_session db sess)
        else
          match find_user_by_id db sess.user_id with
          | none => (none, db)
          | some user =>
            if user.is_active = false then (none, db)
            else
              let access := create_access_token now user.id user.email user.role
              let newRt := create_refresh_token now user.id user.email user.role
              let newExp := now + REFRESH_TOKEN_EXPIRE_DAYS * 86400
              let sess1 : Session :=
                { sess with refresh_token := newRt, expires_at := newExp }
              (some { access_token := access, refresh_token := newRt },
               update_session db sess1)

/-- Embeds `AuthService.logout`: find the session by exact token match and
delete it, reporting only whether a row was found. -/
def logout (db : DB) (tok : Token) : Bool × DB :=
  match get_session_by_token db tok with
  | none => (false, db)
  | some sess => (true, delete_session db sess)

/-- Well-formedness of the store, reflecting the schema constraints: session
primary keys are unique, and `sessions.refresh_token` carries a UNIQUE
constraint. -/
def DB.wf (db : DB) : Prop :=
  (db.sessions.map Session.id).Nodup ∧
  (db.sessions.map Session.refresh_token).Nodup

/-! ## Claim theorems -/

/-- C8: for every role `r` and operation `o`, `has_permission` returns true
iff `r` maps to the wildcard or `o` is a member of `r`'s permitted set in the
static table (admin: all; editor: read, write, delete, analytics-read;
viewer: read, analytics-read; external_viewer: read); admin is permitted for
every operation, and a role outside the closed set yields false for every
operation. -/
theorem c8_role_permission_table :
    (∀ (u : User) (o : String),
      has_permission u o = true ↔
        (u.role = "admin" ∨
         (u.role = "editor" ∧
           o ∈ (["files:read", "files:write", "files:delete", "analytics:read"] : List String)) ∨
         (u.role = "viewer" ∧ o ∈ (["files:read", "analytics:read"] : List String)) ∨
         (u.role = "external_viewer" ∧ o ∈ (["files:read"] : List String)))) ∧
    (∀ (u : User) (o : String), u.role = "admin" → has_permission u o = true) ∧
    (∀ (u : User) (o : String),
      u.role ∉ (["admin", "editor", "viewer", "external_viewer"] : List String) →
      has_permission u o = false) := by
  refine ⟨?_, ?_, ?_⟩
  · intro u o
    simp only [has_permission, ROLE_PERMISSIONS]
    split_ifs with h1 h2 h3 h4 <;> simp_all
  · intro u o h
    simp [has_permission, ROLE_PERMISSIONS, h]
  · intro u o h
    simp only [has_permission, ROLE_PERMISSIONS]
    split_ifs with h1 h2 h3 h4 <;> simp_all

/-- Witness for C8 at concrete inputs: an editor may write, a viewer may
not, an unknown role may do nothing. -/
theorem c8_role_permission_table_witness :
    has_permission
      { id := 1, email := "e@x.com", hashed_password := "h", full_name := none,
        role := "admin", is_active := true, allowedPathPrefix := none,
        last_login_at := none } "anything" = true ∧
    has_permission
      { id := 2, email := "g@x.com", hashed_password := "h", full_name := none,
        role := "ghost", is_active := true, allowedPathPrefix := none,
        last_login_at := none } "files:read" = false :=
  ⟨c8_role_permission_table.2.1 _ "anything" rfl,
   c8_role_permission_table.2.2 _ "files:read" (by decide)⟩

/-- Admin user carrying a path restriction, exercising claim C2. -/
def c2Admin : User :=
  { id := 7, email := "boss@x.com", hashed_password := "h", full_name := none,
    role := "admin", is_active := true, allowedPathPrefix := some "team/alpha",
    last_login_at := none }

/-- C2 counterexample: an admin with `allowed_path_prefix = "team/alpha"`
requesting a listing of "other" is rejected by `_effective_prefix` (HTTP
403), because the listing scoper never consults the role — so admins do not
bypass listing scoping when a restriction is set, although the direct-key
check `user_can_access_path` does bypass it. -/
theorem c2_admin_listing_not_bypassed :
    c2Admin.role = "admin" ∧
    user_can_access_path c2Admin "other" = true ∧
    effectivePrefix c2Admin "other" = ListScope.forbidden := by decide

/-- C2 amended: a user whose role is admin bypasses the direct-key scope
check regardless of restriction, but the listing scoper depends only on
`allowed_path_prefix` and never on the role: a user (admin included)
bypasses listing scoping iff the restriction is empty or absent, in which
case the requested prefix passes through unchanged. -/
theorem c2_admin_bypass_amended :
    (∀ (u : User) (p : String), u.role = "admin" → user_can_access_path u p = true) ∧
    (∀ (u : User) (p : String), pyStrip (u.allowedPathPrefix.getD "") = "" →
      effectivePrefix u p = ListScope.ok p) ∧
    (∀ (u v : User) (p : String), u.allowedPathPrefix = v.allowedPathPrefix →
      effectivePrefix u p = effectivePrefix v p) := by
  refine ⟨?_, ?_, ?_⟩
  · intro u p h
    simp [user_can_access_path, h]
  · intro u p h
    simp [effectivePrefix, h]
  · intro u v p h
    simp only [effectivePrefix, h]

/-- Witness for C2 amended at concrete inputs. -/
theorem c2_admin_bypass_amended_witness :
    user_can_access_path c2Admin "anywhere/else" = true ∧
    effectivePrefix
      { id := 8, email := "free@x.com", hashed_password := "h", full_name := none,
        role := "viewer", is_active := true, allowedPathPrefix := none,
        last_login_at := none } "x/y" = ListScope.ok "x/y" :=
  ⟨c2_admin_bypass_amended.1 c2Admin "anywhere/else" rfl,
   c2_admin_bypass_amended.2.1 _ "x/y" (by decide)⟩

/-- Condition of claim C3 in the claim's own words: the key plus one
separator, after stripping trailing separators, equals or starts with the
canonical base obtained by stripping trailing separators from the
restriction and appending exactly one separator. -/
def claimDirectKeyAllowed (R K : String) : Prop :=
  rstripSlash K ++ "/" = rstripSlash R ++ "/" ∨
  startsWith (rstripSlash K ++ "/") (rstripSlash R ++ "/") = true

/-- C3: for every non-admin user with a non-empty (whitespace-free)
restriction `R` and every key `K`, direct key access is allowed iff the
normalised key lies at or under the canonical base; in particular
`R = "a/b"` allows "a/b" and "a/b/c" and denies "a/bc" and "a". -/
theorem c3_direct_key_boundary :
    (∀ (u : User) (R K : String), u.role ≠ "admin" →
      u.allowedPathPrefix = some R → pyStrip R = R → R ≠ "" → pyStrip K = K →
      (user_can_access_path u K = true ↔ claimDirectKeyAllowed R K)) ∧
    (∀ (u : User), u.role ≠ "admin" → u.allowedPathPrefix = some "a/b" →
      user_can_access_path u "a/b" = true ∧ user_can_access_path u "a/b/c" = true ∧
      user_can_access_path u "a/bc" = false ∧ user_can_access_path u "a" = false) := by
  constructor
  · intro u R K hadm hap htr hne hk
    simp [user_can_access_path, claimDirectKeyAllowed, hadm, hap, htr, hne, hk]
  · intro u hadm hap
    simp only [user_can_access_path, hap, if_neg hadm]
    decide

/-- Witness for C3: a viewer restricted to "a/b" on the four boundary
examples of the claim. -/
theorem c3_direct_key_boundary_witness :
    user_can_access_path
      { id := 3, email := "v@x.com", hashed_password := "h", full_name := none,
        role := "viewer", is_active := true, allowedPathPrefix := some "a/b",
        last_login_at := none } "a/b" = true ∧
    user_can_access_path
      { id := 3, email := "v@x.com", hashed_password := "h", full_name := none,
        role := "viewer", is_active := true, allowedPathPrefix := some "a/b",
        last_login_at := none } "a/bc" = false :=
  ⟨(c3_direct_key_boundary.2 _ (by decide) rfl).1,
   (c3_direct_key_boundary.2 _ (by decide) rfl).2.2.1⟩

/-- Viewer restricted to "team/alpha", exercising claim C4. -/
def c4User : User :=
  { id := 9, email := "alpha@x.com", hashed_password := "h", full_name := none,
    role := "viewer", is_active := true, allowedPathPrefix := some "team/alpha",
    last_login_at := none }

/-- C4 counterexample: with restriction "team/alpha" the requested listing
value "/" is non-empty and, stripped of its trailing separator and given one
separator back, does not start with the base "team/alpha/" — so the claim as
stated demands Forbidden — yet the code normalises "/" to the empty string
first and redirects it to the restriction root "team/alpha/". -/
theorem c4_slash_not_forbidden :
    ("/" : String) ≠ "" ∧
    startsWith (rstripSlash "/" ++ "/") (rstripSlash "team/alpha" ++ "/") = false ∧
    effectivePrefix c4User "/" = ListScope.ok "team/alpha/" := by decide

/-- C4 amended: emptiness of the requested prefix `P` is judged after
normalisation (whitespace trim plus stripping trailing separators): if the
normalised `P` is empty the effective listing prefix is the restriction root
`B` with exactly one trailing separator; if the normalised `P` is non-empty
and normalised-`P`-plus-one-separator does not start with `B`, the request
fails Forbidden.  (As stated the claim judged emptiness on the raw `P`,
which `P = "/"` refutes.) -/
theorem c4_listing_scope_amended (u : User) (R P : String)
    (hap : u.allowedPathPrefix = some R) (htr : pyStrip R = R) (hne : R ≠ "") :
    (rstripSlash (pyStrip P) = "" →
      effectivePrefix u P = ListScope.ok (rstripSlash R ++ "/")) ∧
    (rstripSlash (pyStrip P) ≠ "" →
      startsWith (rstripSlash (pyStrip P) ++ "/") (rstripSlash R ++ "/") = false →
      effectivePrefix u P = ListScope.forbidden) := by
  constructor
  · intro h
    simp [effectivePrefix, hap, htr, hne, h]
  · intro h1 h2
    simp [effectivePrefix, hap, htr, hne, h1, h2]

/-- Witness for C4 amended: the claim's own scenario — restriction
"team/alpha", listing "" yields "team/alpha/", listing "team/beta" is
Forbidden. -/
theorem c4_listing_scope_amended_witness :
    effectivePrefix c4User "" = ListScope.ok "team/alpha/" ∧
    effectivePrefix c4User "team/beta" = ListScope.forbidden :=
  ⟨(c4_listing_scope_amended c4User "team/alpha" "" rfl rfl (by decide)).1 rfl,
   (c4_listing_scope_amended c4User "team/alpha" "team/beta" rfl rfl (by decide)).2
     (by decide) (by decide)⟩

/-- Failure causes of `authenticate_user`, stated structurally over the
store: unknown email, password mismatch, or inactive account. -/
def loginFailCause (verify : String → String → Bool) (db : DB)
    (email password : String) : Prop :=
  (db.users.find? (fun u => decide (u.email = email)) = none) ∨
  (∃ u, db.users.find? (fun u => decide (u.email = email)) = some u ∧
    verify password u.hashed_password = false) ∨
  (∃ u, db.users.find? (fun u => decide (u.email = email)) = some u ∧
    verify password u.hashed_password = true ∧ u.is_active = false)

lemma authenticate_user_eq_none_of_cause
    (verify : String → String → Bool) (db : DB) (email password : String)
    (h : loginFailCause verify db email password) :
    authenticate_user verify db email password = none := by
  unfold authenticate_user
  rcases h with h | ⟨u, hu, hv⟩ | ⟨u, hu, hv, ha⟩
  · rw [h]
  · rw [hu]
    simp [hv]
  · rw [hu]
    simp [hv, ha]

/-- C7: login failure is cause-masked — an attempt failing because the email
matches no user, because the password mismatches, or because the matched
user is inactive always returns the identical invalid-credentials failure,
so the caller cannot distinguish the causes. -/
theorem c7_login_failure_masked
    (v1 v2 : String → String → Bool) (db1 db2 : DB) (n1 n2 : Nat)
    (e1 p1 e2 p2 : String)
    (h1 : loginFailCause v1 db1 e1 p1) (h2 : loginFailCause v2 db2 e2 p2) :
    (login v1 db1 n1 e1 p1).1 = Except.error AuthError.invalidCredentials ∧
    (login v1 db1 n1 e1 p1).1 = (login v2 db2 n2 e2 p2).1 := by
  have a1 := authenticate_user_eq_none_of_cause v1 db1 e1 p1 h1
  have a2 := authenticate_user_eq_none_of_cause v2 db2 e2 p2 h2
  constructor
  · simp [login, a1]
  · simp [login, a1, a2]

/-- Witness for C7: an unknown email against an empty store and a wrong
password against a seeded store produce the same login result. -/
theorem c7_login_failure_masked_witness :
    (login (fun p h => decide (p = h)) { users := [], sessions := [] } 0
      "ghost@x.com" "pw").1 = Except.error AuthError.invalidCredentials ∧
    (login (fun p h => decide (p = h)) { users := [], sessions := [] } 0
      "ghost@x.com" "pw").1 =
    (login (fun p h => decide (p = h))
      { users := [{ id := 1, email := "a@x.com", hashed_password := "secret",
                    full_name := none, role := "viewer", is_active := true,
                    allowedPathPrefix := none, last_login_at := none }],
        sessions := [] } 3 "a@x.com" "wrong").1 :=
  c7_login_failure_masked _ _ _ _ 0 3 _ _ _ _ (Or.inl rfl)
    (Or.inr (Or.inl ⟨_, rfl, by decide⟩))

/-- C6: a refresh call fails, leaving the store untouched, whenever the
presented token does not verify or its claims lack `type = "refresh"`; in
particular every access token issued by the system carries no `type` claim
and is therefore always rejected by refresh. -/
theorem c6_refresh_rejects_non_refresh_tokens :
    (∀ (db : DB) (now : Nat) (tok : Token),
      (decode_token now tok = none ∨
        ∀ c, decode_token now tok = some c → c.type ≠ some "refresh") →
      refresh_access_token db now tok = (none, db)) ∧
    (∀ (db : DB) (now now0 sub : Nat) (email role : String),
      refresh_access_token db now (create_access_token now0 sub email role) =
        (none, db)) := by
  constructor
  · intro db now tok h
    unfold refresh_access_token
    rcases h with h | h
    · rw [h]
    · cases hd : decode_token now tok with
      | none => rfl
      | some c =>
        have hne := h c hd
        simp [hne]
  · intro db now now0 sub email role
    unfold refresh_access_token decode_token create_access_token
    by_cases h : now0 + ACCESS_TOKEN_EXPIRE_MINUTES * 60 < now <;> simp [h]

/-- Witness for C6: a garbage string and a concrete access token are both
rejected against a seeded store. -/
theorem c6_refresh_rejects_non_refresh_tokens_witness :
    refresh_access_token { users := [], sessions := [] } 0 (Token.garbage "zz") =
      (none, { users := [], sessions := [] }) ∧
    refresh_access_token { users := [], sessions := [] } 5
      (create_access_token 5 1 "a@x.com" "viewer") =
      (none, { users := [], sessions := [] }) :=
  ⟨c6_refresh_rejects_non_refresh_tokens.1 _ 0 _ (Or.inl rfl),
   c6_refresh_rejects_non_refresh_tokens.2 _ 5 5 1 "a@x.com" "viewer"⟩

/-- C10: logout decides success purely by exact string match against stored
session tokens — it returns true and removes exactly the row holding the
presented string iff some session stores it (no signature, type or expiry
check is involved: the statement quantifies over all tokens, signed or
garbage, with any expiry), and otherwise returns false and leaves the store
unchanged. -/
theorem c10_logout_exact_string_match (db : DB) (tok : Token) (hwf : db.wf) :
    ((logout db tok).1 = true ↔ ∃ s ∈ db.sessions, s.refresh_token = tok) ∧
    ((logout db tok).1 = false → (logout db tok).2 = db) ∧
    ((logout db tok).1 = true →
      (logout db tok).2.users = db.users ∧
      (logout db tok).2.sessions =
        db.sessions.filter (fun s => decide (s.refresh_token ≠ tok))) := by
  obtain ⟨hids, htoks⟩ := hwf
  cases hfind : get_session_by_token db tok with
  | none =>
    have hlo : logout db tok = (false, db) := by simp [logout, hfind]
    have hnone := List.find?_eq_none.mp hfind
    refine ⟨?_, ?_, ?_⟩
    · rw [hlo]
      constructor
      · intro habs
        exact Bool.noConfusion habs
      · rintro ⟨s, hs, hst⟩
        exact absurd (show decide (s.refresh_token = tok) = true by simp [hst])
          (hnone s hs)
    · intro _
      rw [hlo]
    · intro habs
      rw [hlo] at habs
      exact Bool.noConfusion habs
  | some sess =>
    have hlo : logout db tok = (true, delete_session db sess) := by
      simp [logout, hfind]
    have hmem : sess ∈ db.sessions := List.mem_of_find?_eq_some hfind
    have htok : sess.refresh_token = tok := by
      have := List.find?_some hfind
      simpa using this
    refine ⟨?_, ?_, ?_⟩
    · rw [hlo]
      exact iff_of_true rfl ⟨sess, hmem, htok⟩
    · intro habs
      rw [hlo] at habs
      exact Bool.noConfusion habs
    · intro _
      rw [hlo]
      refine ⟨rfl, ?_⟩
      have hcongr : db.sessions.filter (fun r => decide (r.id ≠ sess.id)) =
          db.sessions.filter (fun s => decide (s.refresh_token ≠ tok)) := by
        apply List.filter_congr
        intro r hr
        apply decide_eq_decide.mpr
        constructor
        · intro hid htk
          exact hid (congrArg Session.id
            (List.inj_on_of_nodup_map htoks hr hmem (htk.trans htok.symm)))
        · intro htk hid
          apply htk
          rw [List.inj_on_of_nodup_map hids hr hmem hid]
          exact htok
      exact hcongr

/-- Witness for C10: a stored garbage token (never validly signed) is
matched and removed; the session list containing it is emptied. -/
theorem c10_logout_exact_string_match_witness :
    (logout
      { users := [],
        sessions := [{ id := 1, user_id := 1,
                       refresh_token := Token.garbage "not-a-jwt",
                       expires_at := 0 }] }
      (Token.garbage "not-a-jwt")).1 = true ↔
    ∃ s ∈ ({ users := [],
             sessions := [{ id := 1, user_id := 1,
                            refresh_token := Token.garbage "not-a-jwt",
                            expires_at := 0 }] } : DB).sessions,
      s.refresh_token = Token.garbage "not-a-jwt" :=
  (c10_logout_exact_string_match _ _ (by constructor <;> decide)).1

/-- C5: a refresh whose token verifies as type refresh and matches a session
row whose `expires_at` is past fails and, as a side effect, deletes that
row, so a later lookup of the same token finds nothing. -/
theorem c5_expired_session_lazily_deleted (db : DB) (now : Nat) (tok : Token)
    (c : TokenClaims) (sess : Session) (hwf : db.wf)
    (hdec : decode_token now tok = some c) (hty : c.type = some "refresh")
    (hfind : get_session_by_token db tok = some sess)
    (hexp : sess.expires_at < now) :
    refresh_access_token db now tok = (none, delete_session db sess) ∧
    get_session_by_token (delete_session db sess) tok = none := by
  obtain ⟨hids, htoks⟩ := hwf
  have hmem : sess ∈ db.sessions := List.mem_of_find?_eq_some hfind
  have htok : sess.refresh_token = tok := by
    have := List.find?_some hfind
    simpa using this
  constructor
  · unfold refresh_access_token
    rw [hdec]
    simp [hty, hfind, hexp]
  · apply List.find?_eq_none.mpr
    intro r hr
    simp only [delete_session, List.mem_filter] at hr
    obtain ⟨hrmem, hrid⟩ := hr
    simp only [decide_eq_true_eq]
    intro habs
    have : r = sess :=
      List.inj_on_of_nodup_map htoks hrmem hmem (habs.trans htok.symm)
    rw [this] at hrid
    simp at hrid

/-- Claim set of the C5 witness token. -/
def c5Claims : TokenClaims :=
  { sub := "1", email := "a@x.com", role := "viewer",
    exp := 100, iat := 0, type := some "refresh" }

/-- Session row of the C5 witness: already expired at t=5. -/
def c5Sess : Session :=
  { id := 1, user_id := 1, refresh_token := Token.signed c5Claims,
    expires_at := 5 }

/-- Store of the C5 witness. -/
def c5Db : DB := { users := [], sessions := [c5Sess] }

/-- Witness for C5: a session expired at t=5, queried at t=10 with a token
that is still cryptographically valid, is removed. -/
theorem c5_expired_session_lazily_deleted_witness :
    refresh_access_token c5Db 10 (Token.signed c5Claims) =
      (none, delete_session c5Db c5Sess) ∧
    get_session_by_token (delete_session c5Db c5Sess) (Token.signed c5Claims) =
      none :=
  c5_expired_session_lazily_deleted c5Db 10 (Token.signed c5Claims) c5Claims
    c5Sess (by constructor <;> decide) rfl rfl rfl (by decide)

/-- C9: a refresh whose token verifies as type refresh and matches an
unexpired session row, but whose owning user is absent or inactive, fails
and leaves the store — in particular that session row — entirely unchanged. -/
theorem c9_missing_or_inactive_user_leaves_store (db : DB) (now : Nat)
    (tok : Token) (c : TokenClaims) (sess : Session)
    (hdec : decode_token now tok = some c) (hty : c.type = some "refresh")
    (hfind : get_session_by_token db tok = some sess)
    (hexp : ¬ sess.expires_at < now)
    (huser : find_user_by_id db sess.user_id = none ∨
      ∃ u, find_user_by_id db sess.user_id = some u ∧ u.is_active = false) :
    refresh_access_token db now tok = (none, db) := by
  unfold refresh_access_token
  rw [hdec]
  rcases huser with h | ⟨u, hu, ha⟩
  · simp [hty, hfind, hexp, h]
  · simp [hty, hfind, hexp, hu, ha]

/-- Claim set of the C9 witness token. -/
def c9Claims : TokenClaims :=
  { sub := "1", email := "a@x.com", role := "viewer",
    exp := 100, iat := 0, type := some "refresh" }

/-- Inactive owner of the C9 witness session. -/
def c9User : User :=
  { id := 1, email := "a@x.com", hashed_password := "h", full_name := none,
    role := "viewer", is_active := false, allowedPathPrefix := none,
    last_login_at := none }

/-- Unexpired session row of the C9 witness. -/
def c9Sess : Session :=
  { id := 1, user_id := 1, refresh_token := Token.signed c9Claims,
    expires_at := 100 }

/-- Store of the C9 witness. -/
def c9Db : DB := { users := [c9User], sessions := [c9Sess] }

/-- Witness for C9: a valid token and live session whose owner is inactive
leave the store unchanged. -/
theorem c9_missing_or_inactive_user_leaves_store_witness :
    refresh_access_token c9Db 10 (Token.signed c9Claims) = (none, c9Db) :=
  c9_missing_or_inactive_user_leaves_store c9Db 10 (Token.signed c9Claims)
    c9Claims c9Sess rfl rfl rfl (by decide) (Or.inr ⟨c9User, rfl, rfl⟩)

lemma refresh_success_inv (db : DB) (now : Nat) (tok : Token)
    (pair : TokenPair) (db1 : DB)
    (h : refresh_access_token db now tok = (some pair, db1)) :
    ∃ c sess user,
      decode_token now tok = some c ∧ c.type = some "refresh" ∧
      get_session_by_token db tok = some sess ∧ ¬ sess.expires_at < now ∧
      find_user_by_id db sess.user_id = some user ∧ user.is_active = true ∧
      pair = { access_token := create_access_token now user.id user.email user.role,
               refresh_token := create_refresh_token now user.id user.email user.role } ∧
      db1 = update_session db
        { sess with
          refresh_token := create_refresh_token now user.id user.email user.role,
          expires_at := now + REFRESH_TOKEN_EXPIRE_DAYS * 86400 } := by
  cases hdec : decode_token now tok with
  | none =>
    have heval : refresh_access_token db now tok = (none, db) := by
      unfold refresh_access_token
      rw [hdec]
    rw [heval] at h
    simp at h
  | some c =>
    by_cases hty : c.type = some "refresh"
    · cases hfind : get_session_by_token db tok with
      | none =>
        have heval : refresh_access_token db now tok = (none, db) := by
          unfold refresh_access_token
          rw [hdec]
          simp [hty, hfind]
        rw [heval] at h
        simp at h
      | some sess =>
        by_cases hexp : sess.expires_at < now
        · have heval : refresh_access_token db now tok =
              (none, delete_session db sess) := by
            unfold refresh_access_token
            rw [hdec]
            simp [hty, hfind, hexp]
          rw [heval] at h
          simp at h
        · cases huser : find_user_by_id db sess.user_id with
          | none =>
            have heval : refresh_access_token db now tok = (none, db) := by
              unfold refresh_access_token
              rw [hdec]
              simp [hty, hfind, hexp, huser]
            rw [heval] at h
            simp at h
          | some user =>
            cases hact : user.is_active with
            | false =>
              have heval : refresh_access_token db now tok = (none, db) := by
                unfold refresh_access_token
                rw [hdec]
                simp [hty, hfind, hexp, huser, hact]
              rw [heval] at h
              simp at h
            | true =>
              have heval : refresh_access_token db now tok =
                  (some { access_token :=
                            create_access_token now user.id user.email user.role,
                          refresh_token :=
                            create_refresh_token now user.id user.email user.role },
                   update_session db
                    { sess with
                      refresh_token :=
                        create_refresh_token now user.id user.email user.role,
                      expires_at := now + REFRESH_TOKEN_EXPIRE_DAYS * 86400 }) := by
                unfold refresh_access_token
                rw [hdec]
                simp [hty, hfind, hexp, huser, hact]
              rw [heval] at h
              injection h with h1 h2
              injection h1 with h1
              exact ⟨c, sess, user, rfl, hty, rfl, hexp, huser, hact,
                h1.symm, h2.symm⟩
    · have heval : refresh_access_token db now tok = (none, db) := by
        unfold refresh_access_token
        rw [hdec]
        simp [hty]
      rw [heval] at h
      simp at h

lemma refresh_fails_of_no_session (db : DB) (now : Nat) (tok : Token)
    (h : get_session_by_token db tok = none) :
    (refresh_access_token db now tok).1 = none := by
  unfold refresh_access_token
  cases hdec : decode_token now tok with
  | none => rfl
  | some c =>
    by_cases hty : c.type = some "refresh"
    · simp [hty, h]
    · simp [hty]

lemma decode_create_refresh (now : Nat) (sub : Nat) (email role : String) :
    decode_token now (create_refresh_token now sub email role) =
      some { sub := toString sub, email := email, role := role,
             exp := now + REFRESH_TOKEN_EXPIRE_DAYS * 86400, iat := now,
             type := some "refresh" } := by
  have h : ¬ (now + REFRESH_TOKEN_EXPIRE_DAYS * 86400 < now) := by omega
  simp [decode_token, create_refresh_token, h]

lemma find?_rotated (l : List Session) (sid : Nat) (sess1 : Session)
    (hmem : ∃ r ∈ l, r.id = sid)
    (hother : ∀ r ∈ l, r.id ≠ sid → r.refresh_token ≠ sess1.refresh_token) :
    (l.map (fun r => if r.id = sid then sess1 else r)).find?
      (fun s => decide (s.refresh_token = sess1.refresh_token)) = some sess1 := by
  induction l with
  | nil =>
    obtain ⟨r, hr, _⟩ := hmem
    cases hr
  | cons a t ih =>
    by_cases hid : a.id = sid
    · rw [List.map_cons, if_pos hid, List.find?_cons_of_pos _ (by simp)]
    · have hne := hother a (List.mem_cons_self a t) hid
      have hmem' : ∃ r ∈ t, r.id = sid := by
        obtain ⟨r, hr, hrid⟩ := hmem
        cases List.mem_cons.mp hr with
        | inl h => exact absurd (h ▸ hrid) hid
        | inr h => exact ⟨r, h, hrid⟩
      have hot' : ∀ r ∈ t, r.id ≠ sid → r.refresh_token ≠ sess1.refresh_token :=
        fun r hr => hother r (List.mem_cons_of_mem a hr)
      rw [List.map_cons, if_neg hid, List.find?_cons_of_neg _ (by simp [hne])]
      exact ih hmem' hot'

/-- Active viewer used by the C1 counterexample. -/
def c1User : User :=
  { id := 1, email := "a@x.com", hashed_password := "h", full_name := none,
    role := "viewer", is_active := true, allowedPathPrefix := none,
    last_login_at := none }

/-- Refresh token issued at second 0 for the C1 counterexample. -/
def c1Tok : Token :=
  Token.signed
    { sub := "1", email := "a@x.com", role := "viewer",
      exp := 604800, iat := 0, type := some "refresh" }

/-- Store holding the C1 counterexample session. -/
def c1Db : DB :=
  { users := [c1User],
    sessions := [{ id := 1, user_id := 1, refresh_token := c1Tok,
                   expires_at := 604800 }] }

/-- C1 counterexample: a refresh performed in the same second as the
presented token's issuance reproduces byte-for-byte the same JWT (identical
claims, deterministic signing), so the "rotated" session still stores `T1`
and a second refresh presenting `T1` succeeds — the same refresh-token value
is accepted by two successful refresh calls, refuting strict single-use. -/
theorem c1_same_second_rotation_replay :
    (refresh_access_token c1Db 0 c1Tok).1.map TokenPair.refresh_token =
      some c1Tok ∧
    ((refresh_access_token (refresh_access_token c1Db 0 c1Tok).2 0 c1Tok).1.map
      TokenPair.refresh_token) = some c1Tok := by decide

/-- C1 amended: after a successful refresh with `T1` yielding `T2`, provided
the rotation actually changed the stored string (`T2 ≠ T1` — guaranteed
whenever the new claim set differs from `T1`'s, e.g. whenever the refresh
happens in a later second than `T1`'s issuance, but violated by a
same-second rotation) and `T2` does not collide with another stored session,
a subsequent refresh presenting `T1` against the resulting state fails (the
endpoint surfaces `InvalidRefreshToken`) at every later instant, while a
refresh presenting `T2` succeeds. -/
theorem c1_rotation_single_use_amended (db : DB) (now : Nat) (tok : Token)
    (pair : TokenPair) (db1 : DB) (hwf : db.wf)
    (hrun : refresh_access_token db now tok = (some pair, db1))
    (hne : pair.refresh_token ≠ tok)
    (hfresh : ∀ s ∈ db.sessions, s.refresh_token ≠ pair.refresh_token) :
    (∀ now2, (refresh_access_token db1 now2 tok).1 = none) ∧
    (refresh_access_token db1 now pair.refresh_token).1.isSome = true := by
  obtain ⟨hids, htoks⟩ := hwf
  obtain ⟨c, sess, user, hdec, hty, hfind, hexp, huser, hact, hpair, hdb1⟩ :=
    refresh_success_inv db now tok pair db1 hrun
  have hmem : sess ∈ db.sessions := List.mem_of_find?_eq_some hfind
  have htokeq : sess.refresh_token = tok := by
    have := List.find?_some hfind
    simpa using this
  have hprt : pair.refresh_token =
      create_refresh_token now user.id user.email user.role := by
    rw [hpair]
  constructor
  · intro now2
    apply refresh_fails_of_no_session
    apply List.find?_eq_none.mpr
    intro r hr
    rw [hdb1] at hr
    simp only [update_session, List.mem_map] at hr
    obtain ⟨r0, hr0, hr0eq⟩ := hr
    simp only [decide_eq_true_eq]
    intro habs
    by_cases hid : r0.id = sess.id
    · rw [if_pos hid] at hr0eq
      rw [← hr0eq] at habs
      exact hne (hprt.trans habs)
    · rw [if_neg hid] at hr0eq
      rw [← hr0eq] at habs
      exact hid (congrArg Session.id
        (List.inj_on_of_nodup_map htoks hr0 hmem (habs.trans htokeq.symm)))
  · have hlookup : get_session_by_token db1 pair.refresh_token =
        some { id := sess.id, user_id := sess.user_id,
               refresh_token := pair.refresh_token,
               expires_at := now + REFRESH_TOKEN_EXPIRE_DAYS * 86400 } := by
      rw [hdb1, hprt]
      unfold get_session_by_token update_session
      exact find?_rotated db.sessions sess.id
        { id := sess.id, user_id := sess.user_id,
          refresh_token := create_refresh_token now user.id user.email user.role,
          expires_at := now + REFRESH_TOKEN_EXPIRE_DAYS * 86400 }
        ⟨sess, hmem, rfl⟩
        (fun r hr _ => hprt ▸ hfresh r hr)
    have hus : find_user_by_id db1 sess.user_id = some user := by
      rw [hdb1]
      exact huser
    have hnl : ¬ (now + REFRESH_TOKEN_EXPIRE_DAYS * 86400 < now) := by omega
    rw [hprt] at hlookup ⊢
    unfold refresh_access_token
    rw [decode_create_refresh]
    simp [hlookup, hus, hact, hnl]

/-- Witness for C1 amended: refreshing the second-0 token at second 5
rotates to a genuinely new token; the old token is then rejected (checked at
second 6) while the new one is accepted at second 5. -/
theorem c1_rotation_single_use_amended_witness :
    ((refresh_access_token (refresh_access_token c1Db 5 c1Tok).2 6 c1Tok).1 =
      none) ∧
    ((refresh_access_token (refresh_access_token c1Db 5 c1Tok).2 5
      (create_refresh_token 5 1 "a@x.com" "viewer")).1.isSome = true) :=
  ⟨(c1_rotation_single_use_amended c1Db 5 c1Tok
      { access_token := create_access_token 5 1 "a@x.com" "viewer",
        refresh_token := create_refresh_token 5 1 "a@x.com" "viewer" }
      (refresh_access_token c1Db 5 c1Tok).2
      (by constructor <;> decide) (by decide) (by decide)
      (by intro s hs; fin_cases hs; decide)).1 6,
   (c1_rotation_single_use_amended c1Db 5 c1Tok
      { access_token := create_access_token 5 1 "a@x.com" "viewer",
        refresh_token := create_refresh_token 5 1 "a@x.com" "viewer" }
      (refresh_access_token c1Db 5 c1Tok).2
      (by constructor <;> decide) (by decide) (by decide)
      (by intro s hs; fin_cases hs; decide)).2⟩

end Maxon
